import Mathlib

/-
Verification of the news-crawler pipeline (src/server.js, batch variant):
a shallow embedding of the cache helpers, Google News link discovery,
article scraping, batch relevance classification and the /crawl_news
route handler, followed by theorems about the embedded definitions.

Modelling conventions:
  - timestamps are integers (epoch milliseconds); Date.now() during one
    request is a single value env.now;
  - the on-disk cache directory is a function from file name (cache key)
    to an optional stored entry;
  - network calls are oracles carried in an Env record: the search fetch
    and the classifier call either succeed with parsed data or fail
    (axios throwing), and per-URL article fetches map each URL to an
    outcome;
  - a JS object field that is never assigned (reading yields undefined)
    is an Option field holding none;
  - JS strings are Lean strings; character-level processing (trim,
    whitespace collapsing, the redirect-unwrapping regex) is implemented
    on the underlying character lists.
-/

namespace NewsCrawler

/-- CACHE_TTL = 60 * 1000 (one minute, in milliseconds). -/
def CACHE_TTL : Int := 60 * 1000

/-- An article as built by scrapeArticle and later given its relevance
verdict by the route handler.  The source object carries url, title and
content; image and relevance model fields that are absent (undefined)
until assigned. -/
structure Article where
  url : String
  title : String
  content : String
  image : Option String
  relevance : Option String
  deriving Repr, DecidableEq

/-- The composed result cached under the key brand ++ "_data". -/
structure BrandResult where
  brand : String
  articles : List Article
  deriving Repr, DecidableEq

/-- What a cache file's data field can hold: a link list (search keys)
or a composed brand result (data keys). -/
inductive Payload where
  | links (ls : List String)
  | result (r : BrandResult)
  deriving Repr, DecidableEq

/-- One cache file: JSON.stringify of a timestamp and the data. -/
structure CacheEntry where
  timestamp : Int
  data : Payload
  deriving Repr, DecidableEq

/-- The cache directory: one file per key, or no file. -/
def Cache : Type := String → Option CacheEntry

/-- saveToCache: write the file for name, overwriting any prior entry. -/
def saveToCache (c : Cache) (name : String) (now : Int) (d : Payload) : Cache :=
  fun k => if k = name then some ⟨now, d⟩ else c k

/-- Removing the file for name (fs.unlinkSync inside loadFromCache). -/
def eraseCache (c : Cache) (name : String) : Cache :=
  fun k => if k = name then none else c k

/-- loadFromCache: if the file exists and now - timestamp < CACHE_TTL,
return its data; if it exists but is stale, delete the file and return
null; if it does not exist, return null.  The returned pair is the JS
return value together with the cache directory after the call. -/
def loadFromCache (c : Cache) (now : Int) (name : String) : Option Payload × Cache :=
  match c name with
  | none => (none, c)
  | some e =>
    if now - e.timestamp < CACHE_TTL then (some e.data, c)
    else (none, eraseCache c name)

/-- The whitespace class of the JS regex escape backslash-s and of
String.prototype.trim: ASCII whitespace, NBSP, the Unicode space
separators, line and paragraph separators, and the BOM. -/
def jsWs (c : Char) : Bool :=
  c = ' ' || c = '\t' || c = '\n' || c = '\r' || c = '\x0b' || c = '\x0c' ||
  c = '\u00a0' || c = '\u1680' ||
  ('\u2000' ≤ c && c ≤ '\u200a') ||
  c = '\u2028' || c = '\u2029' || c = '\u202f' || c = '\u205f' ||
  c = '\u3000' || c = '\ufeff'

/-- String.prototype.trim on the character list. -/
def jsTrim (l : List Char) : List Char :=
  ((l.dropWhile jsWs).reverse.dropWhile jsWs).reverse

/-- replace of one-or-more whitespace by a single space, carried out
left to right; the flag records whether the previous character was part
of a whitespace run already replaced. -/
def collapseFrom (prevWs : Bool) : List Char → List Char
  | [] => []
  | c :: cs =>
    if jsWs c then
      if prevWs then collapseFrom true cs
      else ' ' :: collapseFrom true cs
    else c :: collapseFrom false cs

/-- The replace call of scrapeArticle: collapse every whitespace run to
a single space. -/
def collapseWs (l : List Char) : List Char := collapseFrom false l

/-- A fetched article page as seen by the scraper: the title element's
text, the text of each paragraph element in document order, and the
image-bearing attributes a page may carry (Open-Graph meta, Twitter-card
meta, first image in the article region) that the claim about image
extraction refers to. -/
structure Page where
  titleText : String
  paragraphs : List String
  ogImage : Option String
  twitterImage : Option String
  firstArticleImg : Option String
  deriving Repr, DecidableEq

/-- The outcome of the per-URL axios.get: a parsed page, or a thrown
error (timeout, transport failure, bad status). -/
inductive FetchResult where
  | ok (p : Page)
  | err
  deriving Repr, DecidableEq

/-- scrapeArticle: on a thrown fetch the catch returns null; otherwise
title is the trimmed title text, content is the paragraphs each trimmed,
joined by single spaces, whitespace-collapsed and cut to the first 500
characters; an empty title or empty content yields null. -/
def scrapeArticle (url : String) (f : FetchResult) : Option Article :=
  match f with
  | .err => none
  | .ok p =>
    let title : String := ⟨jsTrim p.titleText.data⟩
    let paragraphs : String :=
      ⟨(collapseWs (List.intercalate [' '] (p.paragraphs.map (fun s => jsTrim s.data)))).take 500⟩
    if title = "" || paragraphs = "" then none
    else some { url := url, title := title, content := paragraphs,
                image := none, relevance := none }

/-- One element of the classifier response: per-input label and score
arrays, sorted descending by score by the endpoint.  Scores are modelled
as rationals. -/
structure LabelScores where
  labels : List String
  scores : List ℚ
  deriving Repr, DecidableEq

/-- The outcome of the axios.post to the classification endpoint: the
parsed response.data array, or a thrown error (network failure, or a
response whose data has no map method). -/
inductive ApiResult where
  | ok (data : List LabelScores)
  | err
  deriving Repr, DecidableEq

/-- The verdict strings of checkRelevanceBatch. -/
def relevantVerdict : String := "Yes, it is relevant"

/-- The not-relevant verdict string. -/
def notRelevantVerdict : String := "No, it is not relevant"

/-- The whole-batch failure verdict string. -/
def errorVerdict : String := "Error: Unable to check relevance"

/-- The per-element arrow body of the response.data.map call:
labels[0] === "unrelated" or scores[0] <= 0.4 gives the not-relevant
string, otherwise the relevant string.  An out-of-range index yields
undefined, which compares unequal to "unrelated" and makes the
numeric comparison false. -/
def classifyOne (e : LabelScores) : String :=
  if e.labels.head? = some "unrelated"
      || (match e.scores.head? with
          | some s => decide (s ≤ 0.4)
          | none => false) then
    notRelevantVerdict
  else relevantVerdict

/-- checkRelevanceBatch: map the decision rule over the response data
on success; on a thrown call return an array of texts.length copies of
the error verdict. -/
def checkRelevanceBatch (texts : List String) (r : ApiResult) : List String :=
  match r with
  | .ok data => data.map classifyOne
  | .err => List.replicate texts.length errorVerdict

/-- Match a literal character list at the head of l; on success return
the remainder of l. -/
def consumeLit : List Char → List Char → Option (List Char)
  | [], rest => some rest
  | _ :: _, [] => none
  | p :: ps, c :: cs => if c = p then consumeLit ps cs else none

/-- After the literal "/url?q=": match http, an optional s, the literal
"://", then one or more characters other than the ampersand (greedy);
return the capture group (scheme through the pre-ampersand run). -/
def captureAfterQ (r : List Char) : Option (List Char) :=
  match consumeLit "http".data r with
  | none => none
  | some r1 =>
    let pick : List Char × List Char :=
      match r1 with
      | 's' :: rest => ("https".data, rest)
      | _ => ("http".data, r1)
    match consumeLit "://".data pick.2 with
    | none => none
    | some r3 =>
      let body := r3.takeWhile (fun c => c ≠ '&')
      if body.isEmpty then none
      else some (pick.1 ++ ':' :: '/' :: '/' :: body)

/-- Leftmost match of the redirect-unwrapping regex over a character
list: at each position try the literal "/url?q=" followed by the
capture; take the first position that matches in full. -/
def firstMatch : List Char → Option (List Char)
  | [] => none
  | c :: cs =>
    match (consumeLit "/url?q=".data (c :: cs)).bind captureAfterQ with
    | some cap => some cap
    | none => firstMatch cs

/-- Does pat occur as a contiguous substring of l (String.prototype
includes)? -/
def hasSubstr (pat : List Char) (l : List Char) : Bool :=
  match l with
  | [] => (consumeLit pat []).isSome
  | _ :: cs => (consumeLit pat l).isSome || hasSubstr pat cs

/-- The per-anchor body of the search-page scan: if the href contains
"/url?q=" and the regex matches, the destination URL is the regex's
capture group. -/
def unwrapRedirect (href : String) : Option String :=
  if hasSubstr "/url?q=".data href.data then
    (firstMatch href.data).map (fun l => ⟨l⟩)
  else none

/-- The oracles for one request: the current time, the search fetch's
outcome (an anchor list: each anchor's optional href attribute, in
document order), the per-URL article fetch outcomes, and the classifier
call's outcome. -/
structure Env where
  now : Int
  searchFetch : Except Unit (List (Option String))
  fetchArticle : String → FetchResult
  classifyApi : ApiResult

/-- A cached payload under a search key is a link list in every run of
the program; asLinks coerces the payload accordingly. -/
def Payload.asLinks : Payload → List String
  | .links ls => ls
  | .result _ => []

/-- searchGoogleNews: return the cached list when the search cache entry
is live; otherwise fetch the search page (propagating a thrown fetch),
collect the unwrapped redirect destinations of all anchors in document
order, keep the first 10, write them to the cache and return them.  The
pair carries the cache directory after the call, since a stale cache
read deletes a file even when the fetch then throws. -/
def searchGoogleNews (c : Cache) (env : Env) (query : String) :
    Except Unit (List String) × Cache :=
  let r1 := loadFromCache c env.now (query ++ "_search")
  match r1.1 with
  | some p => (Except.ok p.asLinks, r1.2)
  | none =>
    match env.searchFetch with
    | Except.error _ => (Except.error (), r1.2)
    | Except.ok anchors =>
      let rawLinks := anchors.filterMap (fun h => h.bind unwrapRedirect)
      let top10 := rawLinks.take 10
      (Except.ok top10, saveToCache r1.2 (query ++ "_search") env.now (Payload.links top10))

/-- The forEach that assigns relevanceResults[idx] to each surviving
article in order; an index beyond the verdict list assigns undefined. -/
def attachRelevance : List Article → List String → List Article
  | [], _ => []
  | a :: as, vs => { a with relevance := vs.head? } :: attachRelevance as (vs.drop 1)

/-- The HTTP response of the /crawl_news handler. -/
inductive Response where
  | json (p : Payload)
  | badRequest
  | serverError
  deriving Repr, DecidableEq

/-- The /crawl_news handler: a falsy brand parameter (missing or empty)
answers 400 at once; a live cached result is returned as-is; otherwise
discovery runs (a thrown search maps to the 500 catch), every link is
scraped, nulls are filtered out, the surviving contents are classified
in one batch, verdicts are attached by index, and the composed result
is cached and returned. -/
def crawlNews (c : Cache) (env : Env) (brandParam : Option String) :
    Response × Cache :=
  match brandParam with
  | none => (Response.badRequest, c)
  | some brand =>
    if brand = "" then (Response.badRequest, c)
    else
      let cacheKey := brand ++ "_data"
      let r1 := loadFromCache c env.now cacheKey
      match r1.1 with
      | some v => (Response.json v, r1.2)
      | none =>
        let sres := searchGoogleNews r1.2 env brand
        match sres.1 with
        | Except.error _ => (Response.serverError, sres.2)
        | Except.ok links =>
          let articlesFetched := links.map (fun link => scrapeArticle link (env.fetchArticle link))
          let filteredArticles := articlesFetched.filterMap id
          let texts := filteredArticles.map (fun a => a.content)
          let relevanceResults := checkRelevanceBatch texts env.classifyApi
          let articles := attachRelevance filteredArticles relevanceResults
          let result : BrandResult := { brand := brand, articles := articles }
          let c2 := saveToCache sres.2 cacheKey env.now (Payload.result result)
          (Response.json (Payload.result result), c2)

/-- The image selection rule exactly as the specification states it
(Open-Graph first, then Twitter card, then the first image in the
article region, with a protocol-relative result prefixed by https:);
stated here to compare against what scrapeArticle builds. -/
def specImage (p : Page) : Option String :=
  ((p.ogImage.or p.twitterImage).or p.firstArticleImg).map
    (fun u => match u.data with
      | '/' :: '/' :: _ => "https:" ++ u
      | _ => u)

/-! Helper lemmas. -/

/-- A lookup finding no file leaves everything as it was. -/
theorem loadFromCache_of_none (c : Cache) (now : Int) (name : String)
    (h : c name = none) : loadFromCache c now name = (none, c) := by
  simp [loadFromCache, h]

/-- A hit leaves the cache directory untouched. -/
theorem loadFromCache_some_snd (c : Cache) (now : Int) (name : String)
    (h : (loadFromCache c now name).1.isSome) : (loadFromCache c now name).2 = c := by
  cases hc : c name with
  | none => simp [loadFromCache, hc]
  | some e =>
    by_cases hlt : now - e.timestamp < CACHE_TTL
    · simp [loadFromCache, hc, hlt]
    · simp [loadFromCache, hc, hlt] at h

/-- After a miss the looked-up file does not exist. -/
theorem loadFromCache_none_snd (c : Cache) (now : Int) (name : String)
    (h : (loadFromCache c now name).1 = none) : ((loadFromCache c now name).2) name = none := by
  cases hc : c name with
  | none => simp [loadFromCache, hc]
  | some e =>
    by_cases hlt : now - e.timestamp < CACHE_TTL
    · simp [loadFromCache, hc, hlt] at h
    · simp [loadFromCache, hc, hlt, eraseCache]

/-- A lookup never touches files under other names. -/
theorem loadFromCache_snd_other (c : Cache) (now : Int) (name k : String)
    (hk : k ≠ name) : ((loadFromCache c now name).2) k = c k := by
  cases hc : c name with
  | none => simp [loadFromCache, hc]
  | some e =>
    by_cases hlt : now - e.timestamp < CACHE_TTL
    · simp [loadFromCache, hc, hlt]
    · simp [loadFromCache, hc, hlt, eraseCache, hk]

/-- A write is visible under its own name. -/
theorem saveToCache_same (c : Cache) (name : String) (now : Int) (d : Payload) :
    (saveToCache c name now d) name = some ⟨now, d⟩ := by
  simp [saveToCache]

/-- A write leaves other names untouched. -/
theorem saveToCache_other (c : Cache) (name k : String) (now : Int) (d : Payload)
    (hk : k ≠ name) : (saveToCache c name now d) k = c k := by
  simp [saveToCache, hk]

/-- The search function touches no file outside its own search key. -/
theorem searchGoogleNews_snd_other (c : Cache) (env : Env) (query k : String)
    (hk : k ≠ query ++ "_search") :
    ((searchGoogleNews c env query).2) k = c k := by
  unfold searchGoogleNews
  have h2 := loadFromCache_snd_other c env.now (query ++ "_search") k hk
  cases hl : (loadFromCache c env.now (query ++ "_search")).1 with
  | some p => simpa [hl] using h2
  | none =>
    cases hf : env.searchFetch with
    | error e => simpa [hl, hf] using h2
    | ok anchors => simp [hl, hf, saveToCache_other _ _ _ _ _ hk, h2]

/-- Claim C1: loadFromCache returns the stored payload iff the entry is
present and now - storedAt is strictly below the TTL; an expired entry
is deleted (the file is gone and a second lookup misses); a missing key
yields null with the directory untouched. -/
theorem c1_cache_ttl (c : Cache) (now : Int) (name : String) :
    (∀ d : Payload, (loadFromCache c now name).1 = some d ↔
      ∃ e : CacheEntry, c name = some e ∧ now - e.timestamp < CACHE_TTL ∧ e.data = d)
    ∧ (∀ e : CacheEntry, c name = some e → ¬ now - e.timestamp < CACHE_TTL →
        (loadFromCache c now name).1 = none
        ∧ ((loadFromCache c now name).2) name = none
        ∧ (loadFromCache ((loadFromCache c now name).2) now name).1 = none)
    ∧ (c name = none → loadFromCache c now name = (none, c)) := by
  refine ⟨?_, ?_, ?_⟩
  · intro d
    cases hc : c name with
    | none => simp [loadFromCache, hc]
    | some e =>
      by_cases hlt : now - e.timestamp < CACHE_TTL
      · simp [loadFromCache, hc, hlt, eq_comm]
      · simp [loadFromCache, hc, hlt]
  · intro e hc hlt
    have h1 : (loadFromCache c now name).1 = none := by
      simp [loadFromCache, hc, hlt]
    have h2 := loadFromCache_none_snd c now name h1
    refine ⟨h1, h2, ?_⟩
    rw [loadFromCache_of_none _ now _ h2]
  · intro hc
    exact loadFromCache_of_none c now name hc

/-- Witness for C1 at a concrete expired entry. -/
def c1cache : Cache := fun k =>
  if k = "k" then some ⟨0, Payload.links ["x"]⟩ else none

/-- C1 at a concrete input: an entry stored at time 0 looked up at time
70000 (TTL being 60000) is gone and stays gone. -/
theorem c1_cache_ttl_witness :
    (loadFromCache c1cache 70000 "k").1 = none
    ∧ ((loadFromCache c1cache 70000 "k").2) "k" = none
    ∧ (loadFromCache ((loadFromCache c1cache 70000 "k").2) 70000 "k").1 = none :=
  (c1_cache_ttl c1cache 70000 "k").2.1 ⟨0, Payload.links ["x"]⟩ (by rfl) (by decide)

/-! Whitespace-run lemmas for C4. -/

/-- No two adjacent characters of the list are both whitespace. -/
def noWsRun : List Char → Bool
  | [] => true
  | [_] => true
  | a :: b :: rest => !(jsWs a && jsWs b) && noWsRun (b :: rest)

/-- Prepending a character keeps the property when the pair condition
holds against the head. -/
theorem noWsRun_cons (x : Char) (rest : List Char)
    (h1 : ∀ d, rest.head? = some d → (jsWs x && jsWs d) = false)
    (h2 : noWsRun rest = true) : noWsRun (x :: rest) = true := by
  cases rest with
  | nil => rfl
  | cons d ds =>
    have h3 := h1 d rfl
    simp [noWsRun, h3, h2]

/-- While inside a run, the collapse emits no whitespace first. -/
theorem collapseFrom_true_head (l : List Char) :
    ∀ c, (collapseFrom true l).head? = some c → jsWs c = false := by
  induction l with
  | nil => intro c h; simp [collapseFrom] at h
  | cons a as ih =>
    intro c h
    by_cases ha : jsWs a
    · rw [collapseFrom, if_pos ha, if_pos rfl] at h
      exact ih c h
    · rw [collapseFrom, if_neg ha] at h
      simp at h
      have hfa : jsWs a = false := by simpa using ha
      rw [← h]
      exact hfa

/-- The collapse never leaves two adjacent whitespace characters. -/
theorem noWsRun_collapseFrom (l : List Char) : ∀ b, noWsRun (collapseFrom b l) = true := by
  induction l with
  | nil => intro b; rfl
  | cons a as ih =>
    intro b
    by_cases ha : jsWs a
    · cases b with
      | true => rw [collapseFrom, if_pos ha, if_pos rfl]; exact ih true
      | false =>
        rw [collapseFrom, if_pos ha]
        simp only [if_neg (by simp : ¬ (false = true))]
        refine noWsRun_cons ' ' _ ?_ (ih true)
        intro d hd
        have := collapseFrom_true_head as d hd
        simp [this]
    · rw [collapseFrom, if_neg ha]
      refine noWsRun_cons a _ ?_ (ih false)
      intro d _
      simp [ha]

/-- A prefix keeps the property. -/
theorem noWsRun_take (l : List Char) (h : noWsRun l = true) :
    ∀ n, noWsRun (l.take n) = true := by
  induction l with
  | nil => intro n; simp [noWsRun]
  | cons a as ih =>
    intro n
    cases as with
    | nil =>
      cases n with
      | zero => rfl
      | succ m => simp [List.take_succ_cons, List.take_nil, noWsRun]
    | cons b bs =>
      have hpair : (jsWs a && jsWs b) = false := by
        rcases Bool.eq_false_or_eq_true (jsWs a && jsWs b) with ht | hf
        · rw [noWsRun, ht] at h
          simp at h
        · exact hf
      have htail : noWsRun (b :: bs) = true := by
        rw [noWsRun] at h
        exact ((Bool.and_eq_true _ _).mp h).2
      cases n with
      | zero => rfl
      | succ m =>
        cases m with
        | zero => rfl
        | succ m2 =>
          have h2 := ih htail (m2 + 1)
          rw [List.take_succ_cons] at h2
          simp only [List.take_succ_cons]
          rw [noWsRun]
          simp [hpair, h2]

/-- Claim C4: a successfully extracted article's content is at most 500
characters long and carries no run of two or more consecutive
whitespace characters. -/
theorem c4_content_bound (url : String) (f : FetchResult) (a : Article)
    (h : scrapeArticle url f = some a) :
    a.content.length ≤ 500 ∧ noWsRun a.content.data = true := by
  cases f with
  | err => simp [scrapeArticle] at h
  | ok p =>
    simp only [scrapeArticle] at h
    split at h
    · simp at h
    · rw [Option.some_inj] at h
      subst h
      constructor
      · show ((collapseWs _).take 500).length ≤ 500
        rw [List.length_take]
        exact min_le_left _ _
      · exact noWsRun_take _ (noWsRun_collapseFrom _ false) 500

/-- Concrete page for the C4 witness. -/
def c4page : Page :=
  { titleText := "T", paragraphs := ["a  b", "c"],
    ogImage := none, twitterImage := none, firstArticleImg := none }

/-- The article c4page scrapes to. -/
def c4art : Article :=
  { url := "u", title := "T", content := "a b c", image := none, relevance := none }

/-- C4 at a concrete input. -/
theorem c4_content_bound_witness :
    scrapeArticle "u" (FetchResult.ok c4page) = some c4art
    ∧ c4art.content.length ≤ 500 ∧ noWsRun c4art.content.data = true :=
  ⟨by decide, (c4_content_bound "u" (FetchResult.ok c4page) c4art (by decide)).1,
    (c4_content_bound "u" (FetchResult.ok c4page) c4art (by decide)).2⟩

/-- Claim C2: within a classified batch, the verdict for a text whose
top label/score pair is (tl, ts) is the relevant string iff tl is not
"unrelated" and ts is strictly above 0.4; otherwise it is the
not-relevant string (so a top score of exactly 0.4 is not relevant). -/
theorem c2_relevance_rule (texts : List String) (data : List LabelScores)
    (i : Nat) (h : i < data.length) (tl : String) (ts : ℚ)
    (hl : (data.get ⟨i, h⟩).labels.head? = some tl)
    (hs : (data.get ⟨i, h⟩).scores.head? = some ts) :
    (checkRelevanceBatch texts (ApiResult.ok data))[i]? = some (classifyOne (data.get ⟨i, h⟩))
    ∧ (classifyOne (data.get ⟨i, h⟩) = relevantVerdict ↔ (tl ≠ "unrelated" ∧ ts > 0.4))
    ∧ (classifyOne (data.get ⟨i, h⟩) = notRelevantVerdict ↔ ¬(tl ≠ "unrelated" ∧ ts > 0.4)) := by
  have hne : relevantVerdict ≠ notRelevantVerdict := by decide
  have hcond : classifyOne (data.get ⟨i, h⟩)
      = if tl = "unrelated" ∨ ts ≤ 0.4 then notRelevantVerdict else relevantVerdict := by
    rw [classifyOne, hl, hs]
    by_cases h1 : tl = "unrelated" <;> by_cases h2 : ts ≤ 0.4 <;>
      simp [h1, h2]
  refine ⟨?_, ?_, ?_⟩
  · show (data.map classifyOne)[i]? = some (classifyOne (data.get ⟨i, h⟩))
    rw [List.getElem?_map, List.getElem?_eq_getElem h]
    rfl
  · rw [hcond]
    by_cases h1 : tl = "unrelated"
    · simp [h1, hne.symm]
    · by_cases h2 : ts ≤ 0.4
      · simp [h1, h2, hne.symm, not_lt.mpr h2]
      · simp [h1, h2, hne, lt_of_not_le h2]
  · rw [hcond]
    by_cases h1 : tl = "unrelated"
    · simp [h1]
    · by_cases h2 : ts ≤ 0.4
      · simp [h1, h2, not_lt.mpr h2]
      · simp [h1, h2, hne, lt_of_not_le h2]

/-- Concrete batch data for the C2 witness: top score exactly 0.4. -/
def c2data : List LabelScores := [{ labels := ["business"], scores := [0.4] }]

/-- C2 at a concrete input: a top pair (business, 0.4) is judged not
relevant (strict threshold). -/
theorem c2_relevance_rule_witness :
    (checkRelevanceBatch ["t"] (ApiResult.ok c2data))[0]? = some notRelevantVerdict := by
  have h := c2_relevance_rule ["t"] c2data 0 (by decide) "business" 0.4 rfl rfl
  have hno : classifyOne (c2data.get ⟨0, by decide⟩) = notRelevantVerdict :=
    h.2.2.mpr (fun hc => absurd hc.2 (by norm_num))
  exact h.1.trans (by rw [hno])

/-- Claim C7: on the success path with the endpoint's per-input
response (one labels/scores element per submitted text), the verdict
list has exactly the input's length and verdict i is the decision rule
applied to the response element for text i; on the failure path the
length is again the input's length. -/
theorem c7_index_alignment (texts : List String) (data : List LabelScores)
    (h : data.length = texts.length) :
    (checkRelevanceBatch texts (ApiResult.ok data)).length = texts.length
    ∧ (∀ i, ∀ hi : i < data.length,
        (checkRelevanceBatch texts (ApiResult.ok data))[i]? = some (classifyOne (data.get ⟨i, hi⟩)))
    ∧ (checkRelevanceBatch texts ApiResult.err).length = texts.length := by
  refine ⟨?_, ?_, ?_⟩
  · show (data.map classifyOne).length = texts.length
    rw [List.length_map, h]
  · intro i hi
    show (data.map classifyOne)[i]? = _
    rw [List.getElem?_map, List.getElem?_eq_getElem hi]
    rfl
  · show (List.replicate texts.length errorVerdict).length = texts.length
    rw [List.length_replicate]

/-- Concrete batch data for the C7 witness. -/
def c7data : List LabelScores :=
  [{ labels := ["finance"], scores := [1] }, { labels := ["unrelated"], scores := [1] }]

/-- C7 at a concrete two-text batch, on both paths. -/
theorem c7_index_alignment_witness :
    (checkRelevanceBatch ["a", "b"] (ApiResult.ok c7data)).length = 2
    ∧ (checkRelevanceBatch ["a", "b"] ApiResult.err).length = 2
    ∧ (checkRelevanceBatch ["a", "b"] (ApiResult.ok c7data))[1]? = some notRelevantVerdict := by
  have h := c7_index_alignment ["a", "b"] c7data rfl
  exact ⟨h.1, h.2.2, (h.2.1 1 (by decide)).trans (by decide)⟩

/-! Pipeline lemmas. -/

/-- Attaching verdicts keeps the article count. -/
theorem attachRelevance_length (as : List Article) (vs : List String) :
    (attachRelevance as vs).length = as.length := by
  induction as generalizing vs with
  | nil => rfl
  | cons a as ih => simp [attachRelevance, ih]

/-- Attaching verdicts changes no url, title or content. -/
theorem attachRelevance_map_core (as : List Article) (vs : List String) :
    (attachRelevance as vs).map (fun a => (a.url, a.title, a.content))
      = as.map (fun a => (a.url, a.title, a.content)) := by
  induction as generalizing vs with
  | nil => rfl
  | cons a as ih => simp [attachRelevance, ih]

/-- Attaching one verdict per article gives that verdict to each. -/
theorem attachRelevance_replicate (as : List Article) (v : String) :
    ∀ a ∈ attachRelevance as (List.replicate as.length v), a.relevance = some v := by
  induction as with
  | nil => intro a ha; simp [attachRelevance] at ha
  | cons x as ih =>
    intro a ha
    rw [List.length_cons, List.replicate_succ, attachRelevance] at ha
    rcases List.mem_cons.mp ha with h1 | h2
    · rw [h1]; rfl
    · exact ih a (by simpa using h2)

/-- On a data-cache miss with successful discovery, the handler runs
the whole scrape / filter / classify / attach / store pipeline. -/
theorem crawlNews_success (c : Cache) (env : Env) (brand : String) (links : List String)
    (c1 : Cache) (hb : brand ≠ "")
    (hm : (loadFromCache c env.now (brand ++ "_data")).1 = none)
    (hs : searchGoogleNews (loadFromCache c env.now (brand ++ "_data")).2 env brand
            = (Except.ok links, c1)) :
    crawlNews c env (some brand) =
      (let filteredArticles :=
        (links.map (fun link => scrapeArticle link (env.fetchArticle link))).filterMap id
       let articles := attachRelevance filteredArticles
          (checkRelevanceBatch (filteredArticles.map (fun a => a.content)) env.classifyApi)
       let result : BrandResult := { brand := brand, articles := articles }
       (Response.json (Payload.result result),
        saveToCache c1 (brand ++ "_data") env.now (Payload.result result))) := by
  simp only [crawlNews, if_neg hb, hm, hs]

/-- Claim C3: a failed classification call yields one error verdict per
input text and no exception, and a pipeline run whose classifier call
failed still answers with a composed BrandResult in which every article
carries the error verdict. -/
theorem c3_classifier_outage (texts : List String) :
    (checkRelevanceBatch texts ApiResult.err).length = texts.length
    ∧ (∀ v ∈ checkRelevanceBatch texts ApiResult.err, v = errorVerdict)
    ∧ ∀ (c : Cache) (env : Env) (brand : String) (links : List String) (c1 : Cache),
        brand ≠ "" →
        (loadFromCache c env.now (brand ++ "_data")).1 = none →
        searchGoogleNews (loadFromCache c env.now (brand ++ "_data")).2 env brand
          = (Except.ok links, c1) →
        env.classifyApi = ApiResult.err →
        ∃ r : BrandResult,
          (crawlNews c env (some brand)).1 = Response.json (Payload.result r)
          ∧ r.brand = brand
          ∧ ∀ a ∈ r.articles, a.relevance = some errorVerdict := by
  refine ⟨List.length_replicate _ _, fun v hv => List.eq_of_mem_replicate hv, ?_⟩
  intro c env brand links c1 hb hm hs hapi
  rw [crawlNews_success c env brand links c1 hb hm hs]
  refine ⟨_, rfl, rfl, ?_⟩
  intro a ha
  rw [hapi] at ha
  set fa := (links.map (fun link => scrapeArticle link (env.fetchArticle link))).filterMap id
  have hlen : (fa.map (fun a => a.content)).length = fa.length := List.length_map _ _
  rw [checkRelevanceBatch, hlen] at ha
  exact attachRelevance_replicate fa errorVerdict a ha

/-- Concrete cache for the C3 witness: a live search entry with one
link, no data entry. -/
def c3cache : Cache := fun k =>
  if k = "Acme_search" then some ⟨0, Payload.links ["u1"]⟩ else none

/-- Concrete oracles for the C3 witness: the classifier call throws. -/
def c3env : Env :=
  { now := 0, searchFetch := Except.error (),
    fetchArticle := fun _ => FetchResult.ok
      { titleText := "T", paragraphs := ["body"],
        ogImage := none, twitterImage := none, firstArticleImg := none },
    classifyApi := ApiResult.err }

/-- C3 at a concrete input. -/
theorem c3_classifier_outage_witness :
    ∃ r : BrandResult,
      (crawlNews c3cache c3env (some "Acme")).1 = Response.json (Payload.result r)
      ∧ r.brand = "Acme"
      ∧ ∀ a ∈ r.articles, a.relevance = some errorVerdict :=
  (c3_classifier_outage ["body"]).2.2 c3cache c3env "Acme" ["u1"] c3cache
    (by decide) (by rfl) (by rfl) (by rfl)

/-- Claim C5: the articles of the composed result are exactly the
links whose extraction succeeded, in link order with failures dropped
(stable, not re-sorted); their count is the number of successful
extractions. -/
theorem c5_order (c : Cache) (env : Env) (brand : String) (links : List String)
    (c1 : Cache) (hb : brand ≠ "")
    (hm : (loadFromCache c env.now (brand ++ "_data")).1 = none)
    (hs : searchGoogleNews (loadFromCache c env.now (brand ++ "_data")).2 env brand
            = (Except.ok links, c1)) :
    ∃ r : BrandResult,
      (crawlNews c env (some brand)).1 = Response.json (Payload.result r)
      ∧ r.articles.map (fun a => (a.url, a.title, a.content))
          = (links.filterMap (fun l => scrapeArticle l (env.fetchArticle l))).map
              (fun a => (a.url, a.title, a.content))
      ∧ r.articles.length
          = (links.filterMap (fun l => scrapeArticle l (env.fetchArticle l))).length := by
  rw [crawlNews_success c env brand links c1 hb hm hs]
  have hfil : (links.map (fun link => scrapeArticle link (env.fetchArticle link))).filterMap id
      = links.filterMap (fun l => scrapeArticle l (env.fetchArticle l)) := by
    rw [List.filterMap_map]
    rfl
  refine ⟨_, rfl, ?_, ?_⟩
  · rw [attachRelevance_map_core, hfil]
  · rw [attachRelevance_length, hfil]

/-- Concrete cache for the C5 witness: ten discovered links. -/
def c5cache : Cache := fun k =>
  if k = "B_search" then
    some ⟨0, Payload.links ["u1", "u2", "u3", "u4", "u5", "u6", "u7", "u8", "u9", "u10"]⟩
  else none

/-- Concrete oracles for the C5 witness: fetching u3, u6 and u9 throws,
the other seven pages scrape successfully. -/
def c5env : Env :=
  { now := 0, searchFetch := Except.error (),
    fetchArticle := fun u =>
      if u = "u3" || u = "u6" || u = "u9" then FetchResult.err
      else FetchResult.ok
        { titleText := "T", paragraphs := ["body"],
          ogImage := none, twitterImage := none, firstArticleImg := none },
    classifyApi := ApiResult.err }

/-- C5 at a concrete input: ten candidate links, three failing
extraction, give exactly seven articles. -/
theorem c5_order_witness :
    ∃ r : BrandResult,
      (crawlNews c5cache c5env (some "B")).1 = Response.json (Payload.result r)
      ∧ r.articles.length = 7 := by
  obtain ⟨r, h1, _, h3⟩ :=
    c5_order c5cache c5env "B" ["u1", "u2", "u3", "u4", "u5", "u6", "u7", "u8", "u9", "u10"]
      c5cache (by decide) (by rfl) (by rfl)
  exact ⟨r, h1, h3.trans (by rfl)⟩

/-- Claim C8: on a search-cache miss with a fetched page, discovery
returns the unwrapped redirect destinations of the page's anchors in
document order cut to the first 10, writes exactly that list to the
cache under the search key before returning, and yields the empty list
(not an error) when no anchor matches. -/
theorem c8_link_discovery (c : Cache) (env : Env) (query : String)
    (anchors : List (Option String))
    (hm : (loadFromCache c env.now (query ++ "_search")).1 = none)
    (hf : env.searchFetch = Except.ok anchors) :
    ∃ links c1, searchGoogleNews c env query = (Except.ok links, c1)
      ∧ links = (anchors.filterMap (fun a => a.bind unwrapRedirect)).take 10
      ∧ links.length ≤ 10
      ∧ c1 (query ++ "_search") = some ⟨env.now, Payload.links links⟩
      ∧ (anchors.filterMap (fun a => a.bind unwrapRedirect) = [] → links = []) := by
  refine ⟨(anchors.filterMap (fun a => a.bind unwrapRedirect)).take 10,
    saveToCache (loadFromCache c env.now (query ++ "_search")).2 (query ++ "_search") env.now
      (Payload.links ((anchors.filterMap (fun a => a.bind unwrapRedirect)).take 10)),
    ?_, rfl, ?_, ?_, ?_⟩
  · simp only [searchGoogleNews, hm, hf]
  · rw [List.length_take]
    exact min_le_left _ _
  · exact saveToCache_same _ _ _ _
  · intro h
    rw [h]
    rfl

/-- The anchors of the C8 witness page: one wrapped link buried in a
longer href, one anchor without the marker, one anchor without an href,
and one bare wrapped link. -/
def c8anchors : List (Option String) :=
  [some "abc /url?q=https://site.com/a&sa=u", some "nope", none,
   some "/url?q=http://b.com/x"]

/-- Concrete oracles for the C8 witness. -/
def c8env : Env :=
  { now := 0, searchFetch := Except.ok c8anchors,
    fetchArticle := fun _ => FetchResult.err, classifyApi := ApiResult.err }

/-- An empty cache directory. -/
def emptyCache : Cache := fun _ => none

/-- C8 at a concrete input: two anchors unwrap, in document order, and
the list is written back under the search key. -/
theorem c8_link_discovery_witness :
    ∃ links c1, searchGoogleNews emptyCache c8env "q" = (Except.ok links, c1)
      ∧ links = ["https://site.com/a", "http://b.com/x"]
      ∧ c1 ("q" ++ "_search") = some ⟨0, Payload.links links⟩ := by
  obtain ⟨links, c1, h1, h2, _, h4, _⟩ :=
    c8_link_discovery emptyCache c8env "q" c8anchors (by rfl) (by rfl)
  exact ⟨links, c1, h1, h2.trans (by decide), h4⟩

/-- Claim C9: a request whose brand parameter is the empty string is
answered exactly like one with no brand parameter: the 400 response,
an untouched cache, and no dependence on any outbound collaborator
(the two runs may carry entirely different oracles). -/
theorem c9_empty_brand (c : Cache) (env env2 : Env) :
    crawlNews c env (some "") = (Response.badRequest, c)
    ∧ crawlNews c env2 none = (Response.badRequest, c) :=
  ⟨rfl, rfl⟩

/-- Concrete page for C6: an Open-Graph image is present. -/
def c6page : Page :=
  { titleText := "T", paragraphs := ["body"],
    ogImage := some "http://x/i.png", twitterImage := none, firstArticleImg := none }

/-- The article c6page scrapes to: no image. -/
def c6art : Article :=
  { url := "u", title := "T", content := "body", image := none, relevance := none }

/-- Counterexample to claim C6 as stated: a page carrying an Open-Graph
image scrapes successfully, the rule of the claim selects that image,
yet the extracted article holds no image at all. -/
theorem c6_image_counterexample :
    scrapeArticle "u" (FetchResult.ok c6page) = some c6art
    ∧ specImage c6page = some "http://x/i.png"
    ∧ c6art.image = none
    ∧ c6art.image ≠ specImage c6page := by
  refine ⟨by decide, by decide, rfl, by decide⟩

/-- Claim C6 as amended: the extractor extracts no image; every
successfully extracted article's image is absent, whatever image
metadata the page carries. -/
theorem c6_no_image (url : String) (f : FetchResult) (a : Article)
    (h : scrapeArticle url f = some a) : a.image = none := by
  cases f with
  | err => simp [scrapeArticle] at h
  | ok p =>
    simp only [scrapeArticle] at h
    split at h
    · simp at h
    · rw [Option.some_inj] at h
      subst h
      rfl

/-- C6 (amended) at a concrete input. -/
theorem c6_no_image_witness :
    scrapeArticle "u" (FetchResult.ok c6page) = some c6art ∧ c6art.image = none :=
  ⟨by decide, c6_no_image "u" (FetchResult.ok c6page) c6art (by decide)⟩

/-- The data key and the search key of one query differ. -/
theorem dataKey_ne_searchKey (brand : String) : brand ++ "_data" ≠ brand ++ "_search" := by
  intro h
  have h2 : (brand ++ "_data").length = (brand ++ "_search").length :=
    congrArg String.length h
  rw [String.length_append, String.length_append] at h2
  have e1 : ("_data" : String).length = 5 := rfl
  have e2 : ("_search" : String).length = 7 := rfl
  rw [e1, e2] at h2
  omega

/-- Concrete cache for the C10 counterexample: a composed result stored
at time 0 under the data key. -/
def c10cache : Cache := fun k =>
  if k = "b_data" then some ⟨0, Payload.result { brand := "b", articles := [] }⟩ else none

/-- Concrete oracles for C10: the lookup happens past the TTL and the
search fetch throws. -/
def c10env : Env :=
  { now := 70000, searchFetch := Except.error (),
    fetchArticle := fun _ => FetchResult.err, classifyApi := ApiResult.err }

/-- Counterexample to claim C10 as stated: a run that fails with a
server error does change the data-key entry — the expired entry that
existed before the run has been deleted by the initial lookup. -/
theorem c10_atomicity_counterexample :
    c10cache "b_data" = some ⟨0, Payload.result { brand := "b", articles := [] }⟩
    ∧ (crawlNews c10cache c10env (some "b")).1 = Response.serverError
    ∧ (crawlNews c10cache c10env (some "b")).2 "b_data" = none :=
  ⟨rfl, rfl, rfl⟩

/-- Claim C10 as amended: the data-key entry is written only with the
fully composed result of a successful run; a run that answers with a
server error leaves no entry under the data key (the initial lookup
may at most have deleted an already-expired one), so a failed run
never caches a partial result; and any entry present after a run is
either the pre-existing one or exactly the payload the run answered
with. -/
theorem c10_no_partial_cache (c : Cache) (env : Env) (brand : String) (hb : brand ≠ "") :
    ((crawlNews c env (some brand)).1 = Response.serverError →
      ((crawlNews c env (some brand)).2) (brand ++ "_data") = none)
    ∧ (∀ e : CacheEntry,
        ((crawlNews c env (some brand)).2) (brand ++ "_data") = some e →
        c (brand ++ "_data") = some e
        ∨ (crawlNews c env (some brand)).1 = Response.json e.data) := by
  have hne := dataKey_ne_searchKey brand
  cases hm : (loadFromCache c env.now (brand ++ "_data")).1 with
  | some v =>
    have hsnd : (loadFromCache c env.now (brand ++ "_data")).2 = c :=
      loadFromCache_some_snd _ _ _ (by rw [hm]; rfl)
    have hcr : crawlNews c env (some brand) = (Response.json v, c) := by
      simp only [crawlNews, if_neg hb, hm, hsnd]
    rw [hcr]
    constructor
    · intro habs
      simp at habs
    · intro e he
      exact Or.inl he
  | none =>
    have hmiss : ((loadFromCache c env.now (brand ++ "_data")).2) (brand ++ "_data") = none :=
      loadFromCache_none_snd _ _ _ hm
    cases hsr : (searchGoogleNews (loadFromCache c env.now (brand ++ "_data")).2 env brand).1 with
    | error u =>
      have hcr : crawlNews c env (some brand)
          = (Response.serverError,
             (searchGoogleNews (loadFromCache c env.now (brand ++ "_data")).2 env brand).2) := by
        simp only [crawlNews, if_neg hb, hm, hsr]
      rw [hcr]
      have hfin : ((searchGoogleNews (loadFromCache c env.now (brand ++ "_data")).2 env brand).2)
          (brand ++ "_data") = none := by
        rw [searchGoogleNews_snd_other _ _ _ _ hne]
        exact hmiss
      constructor
      · intro _
        exact hfin
      · intro e he
        rw [hfin] at he
        exact absurd he (by simp)
    | ok links =>
      have hpair : searchGoogleNews (loadFromCache c env.now (brand ++ "_data")).2 env brand
          = (Except.ok links,
             (searchGoogleNews (loadFromCache c env.now (brand ++ "_data")).2 env brand).2) := by
        rw [← hsr]
      have hcr := crawlNews_success c env brand links _ hb hm hpair
      rw [hcr]
      constructor
      · intro habs
        simp at habs
      · intro e he
        simp only [saveToCache_same] at he
        rw [Option.some_inj] at he
        right
        rw [← he]

/-- C10 (amended) at a concrete input: a failed run over an empty cache
leaves no data-key entry. -/
theorem c10_no_partial_cache_witness :
    (crawlNews emptyCache c10env (some "b")).2 ("b" ++ "_data") = none :=
  (c10_no_partial_cache emptyCache c10env "b" (by decide)).1 (by rfl)

end NewsCrawler
